import Mathlib

/-!
Shallow embedding of the credential-lifecycle core of the `gscli` CLI:
the multi-account Credential Store (`accounts.ts`), the Authenticated
Session Provider and Client Credential Resolver, and the callback handler
of the Authorization Flow Controller (`auth.ts`).

JavaScript objects keyed by email strings are modelled as insertion-ordered
association lists (emails are never array-index-like, so JS preserves
insertion order); JS string truthiness (`undefined`/`""` falsy) is made
explicit; filesystem reads are modelled by a `FileState` value per file.
-/

namespace Gscli

/-- JS truthiness of an optional string: `undefined` and `""` are falsy. -/
def jsTruthyStr : Option String → Bool
  | none => false
  | some s => if s = "" then false else true

/-- JS `a || b` on an optional string `a` with string fallback `b`. -/
def jsOrStr : Option String → String → String
  | none, d => d
  | some s, d => if s = "" then d else s

/-- Lookup in a JS object modelled as an association list (first match). -/
def objGet {α : Type} : List (String × α) → String → Option α
  | [], _ => none
  | (k, v) :: t, e => if k = e then some v else objGet t e

/-- JS `obj[k] = v`: overwrite in place if the key exists, else append. -/
def objSet {α : Type} : List (String × α) → String → α → List (String × α)
  | [], k, v => [(k, v)]
  | (k', v') :: t, k, v =>
      if k' = k then (k', v) :: t else (k', v') :: objSet t k v

/-- JS `delete obj[k]`. -/
def objDelete {α : Type} : List (String × α) → String → List (String × α)
  | [], _ => []
  | (k', v') :: t, k =>
      if k' = k then objDelete t k else (k', v') :: objDelete t k

/-- The `AccountCredentials` record of `accounts.ts`. -/
structure AccountCredentials where
  email : String
  client_id : String
  client_secret : String
  access_token : String
  refresh_token : String
  scope : String
  token_type : String
  expiry_date : Nat
  deriving DecidableEq, Repr

/-- The `AccountsConfig` record of `accounts.ts`: the multi-account store. -/
structure AccountsConfig where
  default_account : Option String
  accounts : List (String × AccountCredentials)
  deriving DecidableEq, Repr

/-- State of one file on disk, as observed by a loader. -/
inductive FileState (α : Type) where
  | absent
  | unparseable
  | parsed (val : α)
  deriving DecidableEq, Repr

/-- `loadAccountsConfig` of `accounts.ts`: an absent or unparseable
`accounts.json` degrades to the empty store `{ accounts: {} }`. -/
def loadAccountsConfig : FileState AccountsConfig → AccountsConfig
  | .absent => { default_account := none, accounts := [] }
  | .unparseable => { default_account := none, accounts := [] }
  | .parsed c => c

/-- `saveAccount` of `accounts.ts` (the in-store mutation; the surrounding
load/write round-trip is collapsed into a store transformation): upsert by
email, and if `config.default_account` is falsy make this account default. -/
def saveAccount (config : AccountsConfig) (credentials : AccountCredentials) :
    AccountsConfig :=
  { default_account :=
      if jsTruthyStr config.default_account then config.default_account
      else some credentials.email
    accounts := objSet config.accounts credentials.email credentials }

/-- `getAccount` of `accounts.ts`: exact lookup when `email` is truthy;
otherwise the account referenced by a truthy `default_account` (or `null`
if that key is absent); otherwise the first account in iteration order. -/
def getAccount (config : AccountsConfig) (email : Option String) :
    Option AccountCredentials :=
  if jsTruthyStr email then
    objGet config.accounts (email.getD "")
  else if jsTruthyStr config.default_account then
    objGet config.accounts (config.default_account.getD "")
  else
    match config.accounts with
    | [] => none
    | (_, c) :: _ => some c

/-- `setDefaultAccount` of `accounts.ts`. -/
def setDefaultAccount (config : AccountsConfig) (email : String) :
    Except String AccountsConfig :=
  if (objGet config.accounts email).isSome then
    .ok { config with default_account := some email }
  else
    .error ("Account not found: " ++ email)

/-- `removeAccount` of `accounts.ts`: delete the key; if it was the default,
the new default is the first remaining key, or `undefined` if none remain. -/
def removeAccount (config : AccountsConfig) (email : String) :
    Except String AccountsConfig :=
  if (objGet config.accounts email).isSome then
    let accounts := objDelete config.accounts email
    .ok { default_account :=
            if config.default_account = some email then
              match accounts with
              | [] => none
              | (k, _) :: _ => some k
            else config.default_account
          accounts := accounts }
  else
    .error ("Account not found: " ++ email)

/-- The legacy single-file `Credentials` record of `auth.ts`
(shape of `credentials.json`). -/
structure Credentials where
  client_id : Option String
  client_secret : Option String
  access_token : String
  refresh_token : String
  scope : String
  token_type : String
  expiry_date : Nat
  deriving DecidableEq, Repr

/-- `loadStoredCredentials` of `auth.ts`: `null` when `credentials.json`
is absent or unparseable, the parsed record otherwise. -/
def loadStoredCredentials : FileState Credentials → Option Credentials
  | .absent => none
  | .unparseable => none
  | .parsed c => some c

/-- `isAuthenticated` of `auth.ts`: true iff the legacy `credentials.json`
loads successfully. -/
def isAuthenticated (legacyFile : FileState Credentials) : Bool :=
  (loadStoredCredentials legacyFile).isSome

/-- The typed failures `getAuthenticatedClient` of `auth.ts` can throw. -/
inductive AuthError where
  | accountNotFound (email : String)
  | noAccountsConfigured
  | tokenRefreshFailed (email : String)
  deriving DecidableEq, Repr

/-- The exact error messages thrown by `getAuthenticatedClient`. -/
def authErrorMessage : AuthError → String
  | .accountNotFound email =>
      "Account not found: " ++ email ++
        ". Run \"gscli auth list\" to see available accounts."
  | .noAccountsConfigured =>
      "No authenticated accounts found. Please run \"gscli auth login\" first."
  | .tokenRefreshFailed email =>
      "Failed to refresh access token for " ++ email ++
        ". Please re-authenticate with \"gscli auth login\"."

/-- A token payload as returned by the provider (code-for-token exchange or
`refreshAccessToken`); `refresh_token` is the one genuinely optional field. -/
structure TokenResponse where
  access_token : String
  refresh_token : Option String
  scope : String
  token_type : String
  expiry_date : Nat
  deriving DecidableEq, Repr

/-- The credential set an `OAuth2Client` is bound with via `setCredentials`. -/
structure ClientCreds where
  access_token : Option String
  refresh_token : Option String
  scope : Option String
  token_type : Option String
  expiry_date : Option Nat
  deriving DecidableEq, Repr

/-- `setCredentials` from a stored account (all fields present). -/
def clientOfAccount (a : AccountCredentials) : ClientCreds :=
  { access_token := some a.access_token
    refresh_token := some a.refresh_token
    scope := some a.scope
    token_type := some a.token_type
    expiry_date := some a.expiry_date }

/-- `setCredentials` from a raw refresh response (`refresh_token` may be
absent there). -/
def clientOfRefreshed (c : TokenResponse) : ClientCreds :=
  { access_token := some c.access_token
    refresh_token := c.refresh_token
    scope := some c.scope
    token_type := some c.token_type
    expiry_date := some c.expiry_date }

/-- Result of one `getAuthenticatedClient` call: the thrown error or the
bound client, the store after the call, and how many refresh calls and
store writes were performed. -/
structure SessionOutcome where
  result : Except AuthError ClientCreds
  store : AccountsConfig
  refreshCalls : Nat
  storeWrites : Nat
  deriving Repr

/-- `getAuthenticatedClient` of `auth.ts`. The store file is threaded as a
value; `refresh` stands for the provider's `refreshAccessToken` call on the
selected account; `now` is `Date.now()`. The refresh branch is guarded by
`account.expiry_date && account.expiry_date < Date.now()` (number
truthiness: `0` never triggers a refresh). -/
def getAuthenticatedClient (config : AccountsConfig)
    (accountEmail : Option String) (now : Nat)
    (refresh : AccountCredentials → Except String TokenResponse) :
    SessionOutcome :=
  match getAccount config accountEmail with
  | none =>
    if jsTruthyStr accountEmail then
      { result := .error (.accountNotFound (accountEmail.getD ""))
        store := config, refreshCalls := 0, storeWrites := 0 }
    else
      { result := .error .noAccountsConfigured
        store := config, refreshCalls := 0, storeWrites := 0 }
  | some account =>
    if account.expiry_date ≠ 0 ∧ account.expiry_date < now then
      match refresh account with
      | .ok credentials =>
        let updatedAccount : AccountCredentials :=
          { account with
            access_token := credentials.access_token
            refresh_token := jsOrStr credentials.refresh_token account.refresh_token
            scope := credentials.scope
            token_type := credentials.token_type
            expiry_date := credentials.expiry_date }
        { result := .ok (clientOfRefreshed credentials)
          store := saveAccount config updatedAccount
          refreshCalls := 1, storeWrites := 1 }
      | .error _ =>
        { result := .error (.tokenRefreshFailed account.email)
          store := config, refreshCalls := 1, storeWrites := 0 }
    else
      { result := .ok (clientOfAccount account)
        store := config, refreshCalls := 0, storeWrites := 0 }

/-- The two fields the resolver must find after unwrapping a client file. -/
structure AppFields where
  client_id : Option String
  client_secret : Option String
  deriving DecidableEq, Repr

/-- A parsed client-credentials JSON file: possibly wrapped one level under
`installed` or `web`, with the object's own top-level fields as fallback. -/
structure ClientJson where
  installed : Option AppFields
  web : Option AppFields
  flat : AppFields
  deriving Repr

/-- `credentials.installed || credentials.web || credentials` (objects are
always truthy in JS, so presence decides). -/
def jsUnwrapCreds (j : ClientJson) : AppFields :=
  match j.installed with
  | some c => c
  | none =>
    match j.web with
    | some c => c
    | none => j.flat

/-- The resolved app-level OAuth client registration. -/
structure AppClientCredential where
  client_id : String
  client_secret : String
  deriving DecidableEq, Repr

/-- What went wrong inside the explicit-path branch before re-wrapping. -/
inductive ResolverInner where
  | invalidFormat
  | fileNotFound
  | parseError
  deriving DecidableEq, Repr

/-- The failures `loadClientCredentials` of `auth.ts` can throw:
the wrapped `Failed to load client credentials from <path>: ...` error of
the explicit-path branch, the bare `Invalid credentials format` error of
the env/default branch, and the final help message naming the search path. -/
inductive ResolverError where
  | loadFailed (path : String) (inner : ResolverInner)
  | invalidCredentialFormat
  | configurationError (searchPath : String)
  deriving DecidableEq, Repr

/-- `DEFAULT_CLIENT_CONFIG_PATH` of `auth.ts`: `./client.json` in the
current working directory, modelled as a fixed relative path. -/
def DEFAULT_CLIENT_CONFIG_PATH : String := "client.json"

/-- Filesystem and environment as seen by the resolver: the legacy
`credentials.json`, the `GOOGLE_CLIENT_CREDENTIAL_FILE` variable, and the
contents of candidate client files by path. -/
structure ResolverEnv where
  legacyFile : FileState Credentials
  envPath : Option String
  files : String → FileState ClientJson

/-- Step 1 of `loadClientCredentials` (lines 44-50 of `auth.ts`): the app
credential embedded in the legacy `credentials.json`, when that file loads
and both fields are truthy. -/
def storedClientCredential (legacyFile : FileState Credentials) :
    Option AppClientCredential :=
  match loadStoredCredentials legacyFile with
  | some sc =>
    if jsTruthyStr sc.client_id ∧ jsTruthyStr sc.client_secret then
      some { client_id := sc.client_id.getD ""
             client_secret := sc.client_secret.getD "" }
    else none
  | none => none

/-- Steps 2-3 of `loadClientCredentials`: the explicit `--client` path when
truthy (failing hard on any problem there), else the single path chosen by
`envPath || DEFAULT_CLIENT_CONFIG_PATH`, whose absent/unparseable states
fall through to the final `ConfigurationError`. -/
def loadClientCredentialsFromFiles (env : ResolverEnv)
    (clientPath : Option String) : Except ResolverError AppClientCredential :=
  if jsTruthyStr clientPath then
    let p := clientPath.getD ""
    match env.files p with
    | .parsed j =>
      let creds := jsUnwrapCreds j
      if jsTruthyStr creds.client_id ∧ jsTruthyStr creds.client_secret then
        .ok { client_id := creds.client_id.getD ""
              client_secret := creds.client_secret.getD "" }
      else .error (.loadFailed p .invalidFormat)
    | .absent => .error (.loadFailed p .fileNotFound)
    | .unparseable => .error (.loadFailed p .parseError)
  else
    let credentialPath :=
      if jsTruthyStr env.envPath then env.envPath.getD ""
      else DEFAULT_CLIENT_CONFIG_PATH
    match env.files credentialPath with
    | .parsed j =>
      let creds := jsUnwrapCreds j
      if jsTruthyStr creds.client_id ∧ jsTruthyStr creds.client_secret then
        .ok { client_id := creds.client_id.getD ""
              client_secret := creds.client_secret.getD "" }
      else .error .invalidCredentialFormat
    | .absent => .error (.configurationError credentialPath)
    | .unparseable => .error (.configurationError credentialPath)

/-- `loadClientCredentials` of `auth.ts`. -/
def loadClientCredentials (env : ResolverEnv) (clientPath : Option String) :
    Except ResolverError AppClientCredential :=
  match storedClientCredential env.legacyFile with
  | some c => .ok c
  | none => loadClientCredentialsFromFiles env clientPath

/-- One incoming request at the callback listener: requests with a falsy
url or `/favicon.ico` are ignored by the handler's outer guard; any other
request carries the optional `code` query parameter. -/
inductive CallbackRequest where
  | ignored
  | callback (code : Option String)
  deriving DecidableEq, Repr

/-- The rejection values of the `authenticate` promise: the two fixed
`new Error(...)` sites and any exception reaching the catch block (token
exchange failure or identity-lookup failure), carrying its message. -/
inductive FlowError where
  | missingAuthorizationCode
  | missingRefreshToken
  | thrown (message : String)
  deriving DecidableEq, Repr

/-- The message carried by each rejection. -/
def flowErrorMessage : FlowError → String
  | .missingAuthorizationCode => "No authorization code received"
  | .missingRefreshToken => "No refresh token received"
  | .thrown m => m

/-- How one handled request settles the `authenticate` promise. -/
inductive AuthOutcome where
  | pending
  | resolved
  | rejected (e : FlowError)
  deriving DecidableEq, Repr

/-- The HTTP response written back to the waiting browser request. -/
inductive BrowserResponse where
  | noResponse
  | page (status : Nat) (body : String)
  deriving DecidableEq, Repr

/-- The fixed success page of `authenticate` (lines 288-296 of `auth.ts`). -/
def successPage : String :=
  "\n              <html>\n                <head><title>Authentication Successful</title></head>\n                <body style=\"font-family: sans-serif; text-align: center; padding: 50px;\">\n                  <h1 style=\"color: #4CAF50;\">✅ Authentication Successful!</h1>\n                  <p>You can now close this window and return to your terminal.</p>\n                </body>\n              </html>\n            "

/-- Result of handling one callback request. -/
structure CallbackResult where
  store : AccountsConfig
  storeWrites : Nat
  outcome : AuthOutcome
  response : BrowserResponse
  deriving DecidableEq, Repr

/-- The request handler inside `authenticate` of `auth.ts` (lines 240-313):
guard, `code` extraction, code-for-token exchange, refresh-token check,
identity lookup, `saveAccount`, and the browser response on every path.
`exchange` stands for `oauth2Client.getToken`, `identity` for
`getUserEmail`. -/
def handleCallback (store : AccountsConfig)
    (clientConfig : AppClientCredential) (req : CallbackRequest)
    (exchange : String → Except String TokenResponse)
    (identity : String → Except String String) : CallbackResult :=
  match req with
  | .ignored =>
    { store := store, storeWrites := 0, outcome := .pending
      response := .noResponse }
  | .callback code =>
    if jsTruthyStr code then
      match exchange (code.getD "") with
      | .error msg =>
        { store := store, storeWrites := 0
          outcome := .rejected (.thrown msg)
          response := .page 500 "<h1>Error during authentication</h1>" }
      | .ok tokens =>
        if jsTruthyStr tokens.refresh_token then
          match identity tokens.access_token with
          | .error msg =>
            { store := store, storeWrites := 0
              outcome := .rejected (.thrown msg)
              response := .page 500 "<h1>Error during authentication</h1>" }
          | .ok userEmail =>
            let accountCredentials : AccountCredentials :=
              { email := userEmail
                client_id := clientConfig.client_id
                client_secret := clientConfig.client_secret
                access_token := tokens.access_token
                refresh_token := tokens.refresh_token.getD ""
                scope := tokens.scope
                token_type := tokens.token_type
                expiry_date := tokens.expiry_date }
            { store := saveAccount store accountCredentials, storeWrites := 1
              outcome := .resolved, response := .page 200 successPage }
        else
          { store := store, storeWrites := 0
            outcome := .rejected .missingRefreshToken
            response := .page 400 "<h1>Error: No refresh token received</h1>" }
    else
      { store := store, storeWrites := 0
        outcome := .rejected .missingAuthorizationCode
        response := .page 400 "<h1>Error: No authorization code received</h1>" }

/-- The fixed page the browser receives for each rejection category. -/
def errorPageFor : FlowError → BrowserResponse
  | .missingAuthorizationCode =>
      .page 400 "<h1>Error: No authorization code received</h1>"
  | .missingRefreshToken =>
      .page 400 "<h1>Error: No refresh token received</h1>"
  | .thrown _ => .page 500 "<h1>Error during authentication</h1>"

/-- The two persisted credential files the auth module touches. -/
structure PersistedState where
  legacyFile : FileState Credentials
  accountsCfg : AccountsConfig

/-- `authenticate`'s effect on the persisted files: the handler writes only
through `saveAccount` (the multi-account `accounts.json`); the legacy
`credentials.json` is never written by the flow. -/
def authenticateStep (fs : PersistedState)
    (clientConfig : AppClientCredential) (req : CallbackRequest)
    (exchange : String → Except String TokenResponse)
    (identity : String → Except String String) :
    PersistedState × AuthOutcome × BrowserResponse :=
  let r := handleCallback fs.accountsCfg clientConfig req exchange identity
  ({ legacyFile := fs.legacyFile, accountsCfg := r.store }, r.outcome,
    r.response)

/-- The store states reachable from the empty store by the mutating
Credential Store operations. -/
inductive Reachable : AccountsConfig → Prop where
  | empty : Reachable { default_account := none, accounts := [] }
  | save (s : AccountsConfig) (c : AccountCredentials) :
      Reachable s → Reachable (saveAccount s c)
  | setDefault (s s' : AccountsConfig) (e : String) :
      Reachable s → setDefaultAccount s e = .ok s' → Reachable s'
  | remove (s s' : AccountsConfig) (e : String) :
      Reachable s → removeAccount s e = .ok s' → Reachable s'

theorem objGet_objSet_self {α : Type} (l : List (String × α)) (k : String)
    (v : α) : objGet (objSet l k v) k = some v := by
  induction l with
  | nil => simp [objSet, objGet]
  | cons h t ih =>
    obtain ⟨k', v'⟩ := h
    by_cases hk : k' = k
    · simp [objSet, hk, objGet]
    · simp [objSet, hk, objGet, ih]

theorem objGet_objSet_ne {α : Type} (l : List (String × α)) (k d : String)
    (v : α) (h : d ≠ k) : objGet (objSet l k v) d = objGet l d := by
  have hkd : ¬ k = d := fun hh => h hh.symm
  induction l with
  | nil => simp [objSet, objGet, hkd]
  | cons hd t ih =>
    obtain ⟨k', v'⟩ := hd
    by_cases hk : k' = k
    · subst hk
      simp [objSet, objGet, hkd]
    · simp [objSet, hk, objGet, ih]

theorem objGet_objDelete_ne {α : Type} (l : List (String × α))
    (e d : String) (h : d ≠ e) : objGet (objDelete l e) d = objGet l d := by
  have hed : ¬ e = d := fun hh => h hh.symm
  induction l with
  | nil => simp [objDelete]
  | cons hd t ih =>
    obtain ⟨k', v'⟩ := hd
    by_cases hk : k' = e
    · subst hk
      simp [objDelete, objGet, hed, ih]
    · simp [objDelete, hk, objGet, ih]

/-- The Credential Store invariant of the spec's data model: a set
default references an existing key. -/
def storeInvariant (s : AccountsConfig) : Prop :=
  ∀ d, s.default_account = some d → (objGet s.accounts d).isSome = true

theorem saveAccount_invariant (s : AccountsConfig) (c : AccountCredentials)
    (ih : storeInvariant s) : storeInvariant (saveAccount s c) := by
  intro d hd
  simp only [saveAccount] at hd ⊢
  by_cases ht : jsTruthyStr s.default_account = true
  · rw [if_pos ht] at hd
    by_cases hdc : d = c.email
    · subst hdc
      simp [objGet_objSet_self]
    · rw [objGet_objSet_ne _ _ _ _ hdc]
      exact ih d hd
  · rw [if_neg ht] at hd
    obtain rfl : c.email = d := by exact Option.some.inj hd
    simp [objGet_objSet_self]

theorem setDefaultAccount_invariant (s s' : AccountsConfig) (e : String)
    (hok : setDefaultAccount s e = .ok s') : storeInvariant s' := by
  intro d hd
  simp only [setDefaultAccount] at hok
  by_cases hc : (objGet s.accounts e).isSome = true
  · rw [if_pos hc] at hok
    obtain rfl : _ = s' := Except.ok.inj hok
    simp only at hd ⊢
    obtain rfl : e = d := Option.some.inj hd
    exact hc
  · rw [if_neg hc] at hok
    exact absurd hok (by simp)

theorem removeAccount_invariant (s s' : AccountsConfig) (e : String)
    (hok : removeAccount s e = .ok s') (ih : storeInvariant s) :
    storeInvariant s' := by
  intro d hd
  simp only [removeAccount] at hok
  by_cases hc : (objGet s.accounts e).isSome = true
  · rw [if_pos hc] at hok
    obtain rfl : _ = s' := Except.ok.inj hok
    simp only at hd ⊢
    by_cases hde : s.default_account = some e
    · rw [if_pos hde] at hd
      revert hd
      cases hrem : objDelete s.accounts e with
      | nil => intro hd; exact absurd hd (by simp)
      | cons p t =>
        intro hd
        obtain ⟨k, v⟩ := p
        obtain rfl : k = d := Option.some.inj hd
        simp [hrem, objGet]
    · rw [if_neg hde] at hd
      have hdne : d ≠ e := by
        intro hcon
        subst hcon
        exact hde hd
      rw [objGet_objDelete_ne _ _ _ hdne]
      exact ih d hd
  · rw [if_neg hc] at hok
    exact absurd hok (by simp)

theorem reachable_invariant (s : AccountsConfig) (h : Reachable s) :
    storeInvariant s := by
  induction h with
  | empty => intro d hd; exact absurd hd (by simp)
  | save t c _ ih => exact saveAccount_invariant t c ih
  | setDefault t t' e _ hok _ => exact setDefaultAccount_invariant t t' e hok
  | remove t t' e _ hok ih => exact removeAccount_invariant t t' e hok ih

theorem reachable_empty_default (s : AccountsConfig) (h : Reachable s)
    (hemp : s.accounts = []) : s.default_account = none := by
  cases hdef : s.default_account with
  | none => rfl
  | some d =>
    have := reachable_invariant s h d hdef
    rw [hemp] at this
    exact absurd this (by simp [objGet])

/-- Concrete account fixture. -/
def acctA : AccountCredentials :=
  { email := "a@x.com", client_id := "idA", client_secret := "secA"
    access_token := "atA", refresh_token := "rtA", scope := "s"
    token_type := "Bearer", expiry_date := 5000 }

/-- Concrete account fixture. -/
def acctB : AccountCredentials :=
  { email := "b@x.com", client_id := "idB", client_secret := "secB"
    access_token := "atB", refresh_token := "rtB", scope := "s"
    token_type := "Bearer", expiry_date := 5000 }

/-- Concrete legacy-credentials fixture. -/
def legacyC : Credentials :=
  { client_id := some "legacyID", client_secret := some "legacySEC"
    access_token := "lat", refresh_token := "lrt", scope := "s"
    token_type := "Bearer", expiry_date := 1 }

/-- The empty store. -/
def cfgEmpty : AccountsConfig := { default_account := none, accounts := [] }

/-- Concrete app-credential fixture. -/
def ccW : AppClientCredential := { client_id := "cid", client_secret := "csec" }

/-- Token response lacking a refresh token. -/
def tokW : TokenResponse :=
  { access_token := "at", refresh_token := none, scope := "s"
    token_type := "Bearer", expiry_date := 1 }

/-- Exchange oracle returning `tokW` for every code. -/
def exW : String → Except String TokenResponse := fun _ => .ok tokW

/-- Identity oracle returning a fixed email. -/
def idW : String → Except String String := fun _ => .ok "u@x.com"

/-- C4: from the empty store, every state reachable by save, setDefault and
remove keeps `default_account` (when set) pointing at an existing key; an
empty mapping forces a cleared default, and removing the last account
leaves the default cleared. -/
theorem c4_store_default_invariant :
    (∀ s, Reachable s → ∀ d, s.default_account = some d →
        (objGet s.accounts d).isSome = true) ∧
    (∀ s, Reachable s → s.accounts = [] → s.default_account = none) ∧
    (∀ s e s', Reachable s → removeAccount s e = .ok s' →
        s'.accounts = [] → s'.default_account = none) :=
  ⟨reachable_invariant, reachable_empty_default,
    fun s e s' hs hok hemp =>
      reachable_empty_default s' (Reachable.remove s s' e hs hok) hemp⟩

/-- Witness for C4 at the store obtained by saving one account. -/
theorem c4_store_default_invariant_witness :
    (objGet (saveAccount cfgEmpty acctA).accounts "a@x.com").isSome = true :=
  c4_store_default_invariant.1 _ (Reachable.save _ acctA Reachable.empty)
    "a@x.com" rfl

/-- C9: loading the Credential Store from an absent or unparseable backing
file returns the empty store (accounts empty, no default) instead of
raising; `loadAccountsConfig` is total. -/
theorem c9_load_tolerates_corrupt_store (file : FileState AccountsConfig)
    (h : file = .absent ∨ file = .unparseable) :
    loadAccountsConfig file = { default_account := none, accounts := [] } := by
  rcases h with h | h <;> subst h <;> rfl

/-- Witness for C9 at an unparseable backing file. -/
theorem c9_load_tolerates_corrupt_store_witness :
    loadAccountsConfig .unparseable =
      { default_account := none, accounts := [] } :=
  c9_load_tolerates_corrupt_store _ (Or.inr rfl)

/-- C10: `isAuthenticated` reports exactly whether the legacy single-file
store parses; the authorization flow never writes the legacy file; hence a
state exists with accounts resolvable but `isAuthenticated = false`, and a
state exists with `isAuthenticated = true` but zero accounts stored. -/
theorem c10_legacy_isAuthenticated_divergence :
    (∀ legacyFile, isAuthenticated legacyFile = true ↔
        ∃ c, legacyFile = FileState.parsed c) ∧
    (∀ fs clientConfig req exchange identity,
        (authenticateStep fs clientConfig req exchange identity).1.legacyFile =
          fs.legacyFile) ∧
    (∃ fs : PersistedState, isAuthenticated fs.legacyFile = false ∧
        fs.accountsCfg.accounts ≠ [] ∧
        (getAccount fs.accountsCfg none).isSome = true) ∧
    (∃ fs : PersistedState, isAuthenticated fs.legacyFile = true ∧
        fs.accountsCfg.accounts = []) := by
  refine ⟨?_, ?_, ?_, ?_⟩
  · intro lf
    cases lf <;> simp [isAuthenticated, loadStoredCredentials]
  · intro fs clientConfig req exchange identity
    rfl
  · exact ⟨{ legacyFile := .absent
             accountsCfg := { default_account := some "a@x.com"
                              accounts := [("a@x.com", acctA)] } },
           rfl, by simp, by decide⟩
  · exact ⟨{ legacyFile := .parsed legacyC, accountsCfg := cfgEmpty },
           rfl, rfl⟩

/-- Witness for C10: a parsed legacy file makes `isAuthenticated` true. -/
theorem c10_legacy_isAuthenticated_divergence_witness :
    isAuthenticated (FileState.parsed legacyC) = true :=
  (c10_legacy_isAuthenticated_divergence.1 (FileState.parsed legacyC)).mpr
    ⟨legacyC, rfl⟩

/-- C6: when the code-for-token exchange succeeds but the response carries
no refresh token, the flow rejects with the missing-refresh-token error,
responds with the fixed 400 page, and performs no store write. -/
theorem c6_missing_refresh_token_no_write (store : AccountsConfig)
    (clientConfig : AppClientCredential) (code : String)
    (exchange : String → Except String TokenResponse)
    (identity : String → Except String String) (tokens : TokenResponse)
    (hcode : code ≠ "") (hex : exchange code = .ok tokens)
    (hrt : tokens.refresh_token = none) :
    handleCallback store clientConfig (.callback (some code)) exchange
        identity =
      { store := store, storeWrites := 0
        outcome := .rejected .missingRefreshToken
        response := .page 400 "<h1>Error: No refresh token received</h1>" } := by
  simp [handleCallback, jsTruthyStr, hcode, hex, hrt]

/-- Witness for C6 at a concrete store, code and oracles. -/
theorem c6_missing_refresh_token_no_write_witness :
    handleCallback cfgEmpty ccW (.callback (some "c")) exW idW =
      { store := cfgEmpty, storeWrites := 0
        outcome := .rejected .missingRefreshToken
        response := .page 400 "<h1>Error: No refresh token received</h1>" } :=
  c6_missing_refresh_token_no_write cfgEmpty ccW "c" exW idW tokW
    (by decide) rfl rfl

/-- C8 counterexample: two failing runs (missing code vs. missing refresh
token) receive different browser response bodies, so the failure responses
are not one fixed reason-independent page. -/
theorem c8_counterexample :
    (handleCallback cfgEmpty ccW (.callback none) exW idW).outcome =
        .rejected .missingAuthorizationCode ∧
    (handleCallback cfgEmpty ccW (.callback (some "c")) exW idW).outcome =
        .rejected .missingRefreshToken ∧
    (handleCallback cfgEmpty ccW (.callback none) exW idW).response ≠
        (handleCallback cfgEmpty ccW (.callback (some "c")) exW idW).response := by
  refine ⟨rfl, rfl, by decide⟩

/-- C8 (amended): every rejected run's browser response is the fixed page
of its rejection category (400 missing-code page, 400 missing-refresh-token
page, 500 generic page for any thrown error); no page depends on the store,
the oracles, or the carried error message. -/
theorem c8_error_page_by_category (store : AccountsConfig)
    (clientConfig : AppClientCredential) (req : CallbackRequest)
    (exchange : String → Except String TokenResponse)
    (identity : String → Except String String) (e : FlowError)
    (h : (handleCallback store clientConfig req exchange identity).outcome =
      .rejected e) :
    (handleCallback store clientConfig req exchange identity).response =
      errorPageFor e := by
  cases req with
  | ignored => exact nomatch h
  | callback code =>
    by_cases hc : jsTruthyStr code = true
    · simp only [handleCallback, hc, if_true] at h ⊢
      generalize hex : exchange (code.getD "") = rex at h ⊢
      cases rex with
      | error m =>
        have h' : AuthOutcome.rejected (.thrown m) = .rejected e := h
        cases h'
        rfl
      | ok tokens =>
        by_cases hrt : jsTruthyStr tokens.refresh_token = true
        · simp only [hrt, if_true] at h ⊢
          generalize hid : identity tokens.access_token = rid at h ⊢
          cases rid with
          | error m =>
            have h' : AuthOutcome.rejected (.thrown m) = .rejected e := h
            cases h'
            rfl
          | ok userEmail =>
            exact nomatch h
        · simp only [hrt, if_false] at h ⊢
          have h' : AuthOutcome.rejected .missingRefreshToken =
              .rejected e := h
          cases h'
          rfl
    · simp only [handleCallback, hc, if_false] at h ⊢
      have h' : AuthOutcome.rejected .missingAuthorizationCode =
          .rejected e := h
      cases h'
      rfl

/-- Witness for C8's amended theorem at a concrete rejected run. -/
theorem c8_error_page_by_category_witness :
    (handleCallback cfgEmpty ccW (.callback none) exW idW).response =
      errorPageFor .missingAuthorizationCode :=
  c8_error_page_by_category cfgEmpty ccW (.callback none) exW idW
    .missingAuthorizationCode rfl

/-- Expired-account fixture (`expiry_date = 10`). -/
def acctExp : AccountCredentials :=
  { email := "e@x.com", client_id := "idE", client_secret := "secE"
    access_token := "atE", refresh_token := "rtE", scope := "s"
    token_type := "Bearer", expiry_date := 10 }

/-- Store holding only the expired account, set as default. -/
def cfgExp : AccountsConfig :=
  { default_account := some "e@x.com", accounts := [("e@x.com", acctExp)] }

/-- Refresh oracle that always fails. -/
def refreshFail : AccountCredentials → Except String TokenResponse :=
  fun _ => .error "boom"

/-- C3: on a failing refresh the Session Provider fails with the
token-refresh error naming the account's email (the exact thrown message),
makes exactly one refresh call, performs no store write, and leaves the
store unchanged. -/
theorem c3_refresh_failure_no_write (config : AccountsConfig)
    (accountEmail : Option String) (now : Nat)
    (refresh : AccountCredentials → Except String TokenResponse)
    (account : AccountCredentials) (msg : String)
    (hacct : getAccount config accountEmail = some account)
    (hexp : account.expiry_date ≠ 0) (hlt : account.expiry_date < now)
    (hfail : refresh account = .error msg) :
    (getAuthenticatedClient config accountEmail now refresh).result =
        .error (.tokenRefreshFailed account.email) ∧
    (getAuthenticatedClient config accountEmail now refresh).store = config ∧
    (getAuthenticatedClient config accountEmail now refresh).storeWrites = 0 ∧
    (getAuthenticatedClient config accountEmail now refresh).refreshCalls = 1 ∧
    authErrorMessage (.tokenRefreshFailed account.email) =
      "Failed to refresh access token for " ++ account.email ++
        ". Please re-authenticate with \"gscli auth login\"." := by
  have hcond : account.expiry_date ≠ 0 ∧ account.expiry_date < now :=
    ⟨hexp, hlt⟩
  simp [getAuthenticatedClient, hacct, hcond, hfail, authErrorMessage]

/-- Witness for C3 at a concrete expired account and failing oracle. -/
theorem c3_refresh_failure_no_write_witness :
    (getAuthenticatedClient cfgExp none 1000 refreshFail).result =
        .error (.tokenRefreshFailed "e@x.com") ∧
    (getAuthenticatedClient cfgExp none 1000 refreshFail).store = cfgExp :=
  ⟨(c3_refresh_failure_no_write cfgExp none 1000 refreshFail acctExp "boom"
      (by decide) (by decide) (by decide) rfl).1,
   (c3_refresh_failure_no_write cfgExp none 1000 refreshFail acctExp "boom"
      (by decide) (by decide) (by decide) rfl).2.1⟩

/-- Store with a dangling default pointer and one stored account. -/
def cfgDangling : AccountsConfig :=
  { default_account := some "a@x.com", accounts := [("b@x.com", acctB)] }

/-- Refresh oracle that is never supposed to be reached. -/
def refreshNever : AccountCredentials → Except String TokenResponse :=
  fun _ => .error "unused"

/-- C1 counterexample: with a set-but-absent `default_account` the store
holds one account, yet `resolve(undefined)` returns no account and fails
with the no-accounts error instead of falling back to the first account. -/
theorem c1_counterexample :
    cfgDangling.accounts ≠ [] ∧
    getAccount cfgDangling none = none ∧
    (getAuthenticatedClient cfgDangling none 0 refreshNever).result =
        .error .noAccountsConfigured ∧
    objGet cfgDangling.accounts "b@x.com" = some acctB := by
  refine ⟨by decide, rfl, rfl, rfl⟩

/-- C1 (amended): a given non-empty email is looked up exactly, failing
with the account-not-found error when absent; with no email, a set
(non-empty) default is looked up exactly, failing with the no-accounts
error when its key is absent (no fallback to the first account); with no
default, the first account in iteration order is returned, and the
no-accounts error is raised when the store is empty. -/
theorem c1_account_selection (config : AccountsConfig) (now : Nat)
    (refresh : AccountCredentials → Except String TokenResponse) :
    (∀ e : String, e ≠ "" →
      getAccount config (some e) = objGet config.accounts e ∧
      (objGet config.accounts e = none →
        (getAuthenticatedClient config (some e) now refresh).result =
          .error (.accountNotFound e))) ∧
    (∀ d : String, config.default_account = some d → d ≠ "" →
      getAccount config none = objGet config.accounts d ∧
      (objGet config.accounts d = none →
        (getAuthenticatedClient config none now refresh).result =
          .error .noAccountsConfigured)) ∧
    (config.default_account = none →
      (∀ k a t, config.accounts = (k, a) :: t →
        getAccount config none = some a) ∧
      (config.accounts = [] →
        (getAuthenticatedClient config none now refresh).result =
          .error .noAccountsConfigured)) := by
  refine ⟨?_, ?_, ?_⟩
  · intro e he
    have ht : jsTruthyStr (some e) = true := by simp [jsTruthyStr, he]
    constructor
    · simp [getAccount, ht]
    · intro hnone
      simp [getAuthenticatedClient, getAccount, ht, hnone]
  · intro d hd hdne
    constructor
    · simp [getAccount, jsTruthyStr, hd, hdne]
    · intro hnone
      simp [getAuthenticatedClient, getAccount, jsTruthyStr, hd, hdne, hnone]
  · intro hdef
    constructor
    · intro k a t hacc
      simp [getAccount, jsTruthyStr, hdef, hacc]
    · intro hemp
      simp [getAuthenticatedClient, getAccount, jsTruthyStr, hdef, hemp]

/-- Store holding `acctA` with itself as default. -/
def cfgA : AccountsConfig :=
  { default_account := some "a@x.com", accounts := [("a@x.com", acctA)] }

/-- Witness for C1's amended theorem at a concrete store and default. -/
theorem c1_account_selection_witness :
    getAccount cfgA none = objGet cfgA.accounts "a@x.com" :=
  ((c1_account_selection cfgA 0 refreshNever).2.1 "a@x.com" rfl
    (by decide)).1

/-- Account fixture whose `expiry_date` is the falsy number `0`. -/
def acctZero : AccountCredentials :=
  { email := "z@x.com", client_id := "idZ", client_secret := "secZ"
    access_token := "atZ", refresh_token := "rtZ", scope := "s"
    token_type := "Bearer", expiry_date := 0 }

/-- Store holding only `acctZero`. -/
def cfgZero : AccountsConfig :=
  { default_account := none, accounts := [("z@x.com", acctZero)] }

/-- A successful refresh response. -/
def tokOk : TokenResponse :=
  { access_token := "newAT", refresh_token := some "newRT", scope := "s"
    token_type := "Bearer", expiry_date := 99999 }

/-- Refresh oracle that always succeeds with `tokOk`. -/
def refreshOk : AccountCredentials → Except String TokenResponse :=
  fun _ => .ok tokOk

/-- C2 counterexample: `expiry_date = 0` is strictly in the past at
`now = 1000`, yet the number-truthiness guard skips the refresh entirely
and returns the stored tokens unchanged. -/
theorem c2_counterexample :
    acctZero.expiry_date = 0 ∧ acctZero.expiry_date < 1000 ∧
    getAccount cfgZero none = some acctZero ∧
    (getAuthenticatedClient cfgZero none 1000 refreshOk).refreshCalls = 0 ∧
    (getAuthenticatedClient cfgZero none 1000 refreshOk).result =
        .ok (clientOfAccount acctZero) ∧
    (getAuthenticatedClient cfgZero none 1000 refreshOk).store = cfgZero := by
  refine ⟨rfl, by decide, rfl, rfl, rfl, rfl⟩

/-- C2 (amended): an account whose `expiry_date` is nonzero and strictly in
the past triggers exactly one refresh call; a successful refresh writes the
full updated record back (keeping the stored refresh_token when the
response's is absent or empty, taking the response's otherwise) and returns
a client bound with the refresh response's tokens; otherwise no refresh
call or store write happens and the stored tokens are returned unchanged. -/
theorem c2_refresh_policy (config : AccountsConfig)
    (accountEmail : Option String) (now : Nat)
    (refresh : AccountCredentials → Except String TokenResponse)
    (account : AccountCredentials)
    (hacct : getAccount config accountEmail = some account) :
    ((account.expiry_date ≠ 0 ∧ account.expiry_date < now) →
      (getAuthenticatedClient config accountEmail now refresh).refreshCalls
          = 1 ∧
      ∀ credentials, refresh account = .ok credentials →
        (getAuthenticatedClient config accountEmail now refresh).storeWrites
            = 1 ∧
        (getAuthenticatedClient config accountEmail now refresh).result =
          .ok (clientOfRefreshed credentials) ∧
        objGet (getAuthenticatedClient config accountEmail now
            refresh).store.accounts account.email =
          some { account with
                 access_token := credentials.access_token
                 refresh_token :=
                   jsOrStr credentials.refresh_token account.refresh_token
                 scope := credentials.scope
                 token_type := credentials.token_type
                 expiry_date := credentials.expiry_date } ∧
        (credentials.refresh_token = none →
          jsOrStr credentials.refresh_token account.refresh_token =
            account.refresh_token) ∧
        (∀ s, credentials.refresh_token = some s → s ≠ "" →
          jsOrStr credentials.refresh_token account.refresh_token = s)) ∧
    (¬(account.expiry_date ≠ 0 ∧ account.expiry_date < now) →
      getAuthenticatedClient config accountEmail now refresh =
        { result := .ok (clientOfAccount account), store := config
          refreshCalls := 0, storeWrites := 0 }) := by
  constructor
  · intro hcond
    constructor
    · cases hrf : refresh account with
      | ok credentials =>
        simp [getAuthenticatedClient, hacct, hcond, hrf]
      | error m =>
        simp [getAuthenticatedClient, hacct, hcond, hrf]
    · intro credentials hok
      refine ⟨?_, ?_, ?_, ?_, ?_⟩
      · simp [getAuthenticatedClient, hacct, hcond, hok]
      · simp [getAuthenticatedClient, hacct, hcond, hok]
      · simp only [getAuthenticatedClient, hacct]
        rw [if_pos hcond, hok]
        simp only [saveAccount]
        exact objGet_objSet_self _ _ _
      · intro hrt
        simp [jsOrStr, hrt]
      · intro s hs hsne
        simp [jsOrStr, hs, hsne]
  · intro hncond
    simp [getAuthenticatedClient, hacct, hncond]

/-- Witness for C2's amended theorem at a concrete expired account. -/
theorem c2_refresh_policy_witness :
    (getAuthenticatedClient cfgExp none 1000 refreshOk).storeWrites = 1 :=
  (((c2_refresh_policy cfgExp none 1000 refreshOk acctExp rfl).1
      (by decide)).2 tokOk rfl).1

/-- Account fixture holding app credential (A, S) in the multi-account
store. -/
def acct5 : AccountCredentials :=
  { email := "u@x.com", client_id := "A", client_secret := "S"
    access_token := "at5", refresh_token := "rt5", scope := "s"
    token_type := "Bearer", expiry_date := 5000 }

/-- Multi-account store holding `acct5`. -/
def store5 : AccountsConfig :=
  { default_account := some "u@x.com", accounts := [("u@x.com", acct5)] }

/-- A flat client file carrying (B, T). -/
def clientFileBT : ClientJson :=
  { installed := none, web := none
    flat := { client_id := some "B", client_secret := some "T" } }

/-- Resolver environment: no legacy file, no env var, one client file at
`/p`. -/
def env5 : ResolverEnv :=
  { legacyFile := .absent, envPath := none
    files := fun p => if p = "/p" then .parsed clientFileBT else .absent }

/-- C5 counterexample: the multi-account store holds an app credential
(A, S), yet resolving with an explicit path returns that file's (B, T):
source (1) of the resolver is the legacy single-file `credentials.json`,
not the multi-account store. -/
theorem c5_counterexample :
    objGet store5.accounts "u@x.com" = some acct5 ∧
    acct5.client_id = "A" ∧ acct5.client_secret = "S" ∧
    loadClientCredentials env5 (some "/p") =
      .ok { client_id := "B", client_secret := "T" } ∧
    ({ client_id := "B", client_secret := "T" } : AppClientCredential) ≠
      { client_id := "A", client_secret := "S" } := by
  refine ⟨rfl, rfl, rfl, rfl, by decide⟩

/-- C5 (amended): resolution order is (1) the client_id/client_secret
embedded in the legacy single-file store `credentials.json` when it loads
with both fields non-empty; (2) the explicit path when given (non-empty),
which fails hard — file-not-found, parse failure, or missing fields — and
never falls through; (3) otherwise a single path, the env-var path when
that variable is set and non-empty, else the fixed default path: a parsed
file there yields its fields or the invalid-format error, while an absent
or unparseable file falls through to the configuration error naming the
searched path. -/
theorem c5_resolver_order (env : ResolverEnv) (clientPath : Option String) :
    (∀ c, storedClientCredential env.legacyFile = some c →
      loadClientCredentials env clientPath = .ok c) ∧
    (storedClientCredential env.legacyFile = none →
      (∀ p, clientPath = some p → p ≠ "" →
        (env.files p = .absent →
          loadClientCredentials env clientPath =
            .error (.loadFailed p .fileNotFound)) ∧
        (env.files p = .unparseable →
          loadClientCredentials env clientPath =
            .error (.loadFailed p .parseError)) ∧
        (∀ j, env.files p = .parsed j →
          ((jsTruthyStr (jsUnwrapCreds j).client_id = true ∧
            jsTruthyStr (jsUnwrapCreds j).client_secret = true) →
            loadClientCredentials env clientPath =
              .ok { client_id := (jsUnwrapCreds j).client_id.getD ""
                    client_secret :=
                      (jsUnwrapCreds j).client_secret.getD "" }) ∧
          (¬(jsTruthyStr (jsUnwrapCreds j).client_id = true ∧
             jsTruthyStr (jsUnwrapCreds j).client_secret = true) →
            loadClientCredentials env clientPath =
              .error (.loadFailed p .invalidFormat)))) ∧
      (¬ jsTruthyStr clientPath = true →
        ∀ q, q = (if jsTruthyStr env.envPath = true then env.envPath.getD ""
                  else DEFAULT_CLIENT_CONFIG_PATH) →
        ((env.files q = .absent ∨ env.files q = .unparseable) →
          loadClientCredentials env clientPath =
            .error (.configurationError q)) ∧
        (∀ j, env.files q = .parsed j →
          ((jsTruthyStr (jsUnwrapCreds j).client_id = true ∧
            jsTruthyStr (jsUnwrapCreds j).client_secret = true) →
            loadClientCredentials env clientPath =
              .ok { client_id := (jsUnwrapCreds j).client_id.getD ""
                    client_secret :=
                      (jsUnwrapCreds j).client_secret.getD "" }) ∧
          (¬(jsTruthyStr (jsUnwrapCreds j).client_id = true ∧
             jsTruthyStr (jsUnwrapCreds j).client_secret = true) →
            loadClientCredentials env clientPath =
              .error .invalidCredentialFormat)))) := by
  constructor
  · intro c hc
    simp [loadClientCredentials, hc]
  · intro hnone
    constructor
    · intro p hp hpne
      subst hp
      have ht : jsTruthyStr (some p) = true := by simp [jsTruthyStr, hpne]
      refine ⟨?_, ?_, ?_⟩
      · intro hfile
        simp [loadClientCredentials, hnone, loadClientCredentialsFromFiles,
          ht, hfile]
      · intro hfile
        simp [loadClientCredentials, hnone, loadClientCredentialsFromFiles,
          ht, hfile]
      · intro j hj
        constructor
        · intro hok
          simp [loadClientCredentials, hnone, loadClientCredentialsFromFiles,
            ht, hj, hok.1, hok.2]
        · intro hneg
          simp only [loadClientCredentials, hnone,
            loadClientCredentialsFromFiles, ht, if_true, Option.getD_some, hj]
          rw [if_neg hneg]
    · intro hcp q hq
      subst hq
      constructor
      · intro hfile
        rcases hfile with hfile | hfile <;>
          simp [loadClientCredentials, hnone, loadClientCredentialsFromFiles,
            hcp, hfile]
      · intro j hj
        constructor
        · intro hok
          simp [loadClientCredentials, hnone, loadClientCredentialsFromFiles,
            hcp, hj, hok.1, hok.2]
        · intro hneg
          simp only [loadClientCredentials, hnone,
            loadClientCredentialsFromFiles, hcp, if_false, hj]
          rw [if_neg hneg]
          simp

/-- Witness for C5's amended theorem: the explicit path wins once the
legacy store yields nothing. -/
theorem c5_resolver_order_witness :
    loadClientCredentials env5 (some "/p") =
      .ok { client_id := (jsUnwrapCreds clientFileBT).client_id.getD ""
            client_secret :=
              (jsUnwrapCreds clientFileBT).client_secret.getD "" } :=
  (((c5_resolver_order env5 (some "/p")).2 rfl).1 "/p" rfl (by decide)).2.2
    clientFileBT rfl |>.1 (by decide)

end Gscli
